import Mathlib

/-!
Verification development for the auth-kommune authentication and access-logging
core. The Python source (`src/auth_kommune/user.py`, `middleware.py`,
`routes.py`) is shallowly embedded: dictionaries become association lists,
datetimes become integer UTC timestamps, database writes become explicit
effect lists, and Python truthiness is made explicit wherever the source
relies on it.
-/

set_option autoImplicit false

namespace AuthKommune

/-- A JSON-like value stored in an OpenID claim mapping (`userinfo` dict). -/
inductive Value where
  | vStr (s : String)
  | vNum (n : Int)
  | vStrList (l : List String)
  | vNumList (l : List Int)
  deriving DecidableEq, Repr

/-- A claim mapping (`userinfo` dict): association list from claim keys to values. -/
abbrev ClaimMapping := List (String × Value)

/-- Python dict lookup `m[k]` as an `Option` (first binding wins). -/
def cmGet (m : ClaimMapping) (k : String) : Option Value :=
  match m.find? (fun p => p.1 == k) with
  | some p => some p.2
  | none => none

/-- Python truthiness of `session.get("user")`: `None` and the empty dict are
falsy, a non-empty dict is truthy. -/
def optMapTruthy : Option ClaimMapping → Bool
  | none => false
  | some l => !l.isEmpty

/-- Key configuration carried as class attributes on `User` in `user.py`
(`key_id`, `key_name`, `key_email`, `key_roles`, `key_department`,
`key_department_tree`, `email_id`). -/
structure KeyConfig where
  key_id : String
  key_name : String
  key_email : String
  key_roles : String
  key_department : Option String
  key_department_tree : Option String
  email_id : Bool
  deriving DecidableEq, Repr

/-- The typed identity built by `User.__init__` from a claim mapping. -/
structure User where
  id : Value
  name : Value
  email : Value
  roles : Value
  department : Option Value
  department_tree : Option Value
  deriving DecidableEq, Repr

/-- Dict lookup that raises `KeyError` when the key is absent, as `userinfo[k]`
does in `User.__init__`. -/
def lookupClaim (m : ClaimMapping) (k : String) : Except String Value :=
  match cmGet m k with
  | some v => Except.ok v
  | none => Except.error ("KeyError: " ++ k)

/-- Optional-field lookup of `User.__init__`:
`userinfo[self.key_department] if self.key_department else None`.
A `None` or empty-string key is falsy in Python, so the field is `none`
without consulting the mapping; a truthy key is looked up and missing keys
raise `KeyError`. -/
def lookupOptionalClaim (m : ClaimMapping) (k : Option String) : Except String (Option Value) :=
  match k with
  | some key =>
    if key == "" then Except.ok none
    else
      match lookupClaim m key with
      | Except.ok v => Except.ok (some v)
      | Except.error e => Except.error e
  | none => Except.ok none

/-- `User.__init__(userinfo)`: builds the identity, raising (modelled as
`Except.error`) on a missing required key. When `email_id` is set, `id` is
`userinfo[key_email].split("@")[0]`, which additionally requires the email
value to be a string. -/
def parseUser (cfg : KeyConfig) (m : ClaimMapping) : Except String User := do
  let id : Value ←
    if cfg.email_id then
      match ← lookupClaim m cfg.key_email with
      | Value.vStr e => pure (Value.vStr ((e.splitOn "@").headD ""))
      | _ => Except.error "AttributeError: split"
    else lookupClaim m cfg.key_id
  let name ← lookupClaim m cfg.key_name
  let email ← lookupClaim m cfg.key_email
  let roles ← lookupClaim m cfg.key_roles
  let department ← lookupOptionalClaim m cfg.key_department
  let department_tree ← lookupOptionalClaim m cfg.key_department_tree
  pure ⟨id, name, email, roles, department, department_tree⟩

/-- Whether `*user.roles` unpacking in `AuthCredentials(["authenticated",
*user.roles])` succeeds: lists and strings are iterable, a bare number is not. -/
def rolesIterable : Value → Bool
  | Value.vNum _ => false
  | _ => true

/-- The request-scoped session: the `user` entry (claim mapping) and the
`next` entry (redirect target) that this core reads and mutates. -/
structure Session where
  userEntry : Option ClaimMapping
  nextEntry : Option String
  deriving DecidableEq, Repr

/-- Configuration of `PostgresAuthenticationBackend`: the key configuration it
installs on `User`, the optional `transform_userinfo` function, and the
optional `default_userinfo` mapping. -/
structure Backend where
  cfg : KeyConfig
  transform : Option (ClaimMapping → ClaimMapping)
  default_userinfo : Option ClaimMapping

/-- `if self.transform_userinfo: userinfo = self.transform_userinfo(userinfo)`. -/
def applyTransform (b : Backend) (m : ClaimMapping) : ClaimMapping :=
  match b.transform with
  | some f => f m
  | none => m

/-- Outcome of `PostgresAuthenticationBackend.authenticate`: an anonymous
identity (`AuthCredentials(), UnauthenticatedUser()`), an authenticated
identity, or a raised exception. -/
inductive AuthOutcome where
  | anonymous
  | authenticated (u : User)
  | error (e : String)
  deriving DecidableEq, Repr

/-- The default-identity branch of `authenticate`: builds a `User` from
`self.default_userinfo` and returns it authenticated, with no store write. -/
def defaultBranch (b : Backend) (s : Session) : AuthOutcome × Session × List User :=
  match b.default_userinfo with
  | some dm =>
    match parseUser b.cfg dm with
    | Except.ok u =>
      if rolesIterable u.roles then (AuthOutcome.authenticated u, s, [])
      else (AuthOutcome.error "TypeError", s, [])
    | Except.error e => (AuthOutcome.error e, s, [])
  | none => (AuthOutcome.anonymous, s, [])

/-- `PostgresAuthenticationBackend.authenticate` over the session, at UTC
timestamp `now`. Returns the outcome, the resulting session, and the list
of identities upserted into the store (`update_user` calls), in order.
Mirrors the source control flow:
no (truthy) `user` entry with a default configured yields the default
identity; no (truthy) `user` entry otherwise yields anonymous; an expired
entry (`now >= userinfo["exp"]`) is popped from the session and yields
anonymous; otherwise the optionally transformed mapping is parsed into a
`User`, which is upserted and returned authenticated. -/
def authenticate (b : Backend) (s : Session) (now : Int) : AuthOutcome × Session × List User :=
  if !optMapTruthy s.userEntry && optMapTruthy b.default_userinfo then
    defaultBranch b s
  else if !optMapTruthy s.userEntry then
    (AuthOutcome.anonymous, s, [])
  else
    match s.userEntry with
    | none => (AuthOutcome.anonymous, s, [])
    | some m =>
      match cmGet m "exp" with
      | some (Value.vNum e) =>
        if now ≥ e then
          (AuthOutcome.anonymous, { s with userEntry := none }, [])
        else
          match parseUser b.cfg (applyTransform b m) with
          | Except.ok u =>
            if rolesIterable u.roles then (AuthOutcome.authenticated u, s, [u])
            else (AuthOutcome.error "TypeError", s, [u])
          | Except.error err => (AuthOutcome.error err, s, [])
      | some _ => (AuthOutcome.error "TypeError: exp not numeric", s, [])
      | none => (AuthOutcome.error "KeyError: exp", s, [])

/-- Python's `s.startswith(pre)`: `pre`'s characters are a prefix of `s`'s. -/
def pyStartsWith (s pre : String) : Bool := pre.data.isPrefixOf s.data

/-- A route pattern held by `AccessLogMiddleware`: either a literal string
(matched with `path.startswith`) or a compiled path regex, abstracted as its
anchored-match predicate (`pattern.match(path)`). -/
inductive RoutePattern where
  | lit (s : String)
  | regex (matchAt : String → Bool)

/-- One pattern's verdict on a request path, as used inside `match_route`. -/
def RoutePattern.hit (p : RoutePattern) (path : String) : Bool :=
  match p with
  | RoutePattern.lit s => pyStartsWith path s
  | RoutePattern.regex f => f path

/-- Configuration of `AccessLogMiddleware`: the `routes` set, the
`query_routes` set, and the `status_codes` allow-list. -/
structure AccessLogConfig where
  routes : List RoutePattern
  query_routes : List RoutePattern
  status_codes : List Int

/-- `AccessLogMiddleware.match_route`: whether the request path matches any
pattern of `routes`, and whether it matches any pattern of `query_routes`. -/
def match_route (cfg : AccessLogConfig) (path : String) : Bool × Bool :=
  (cfg.routes.any (fun p => p.hit path), cfg.query_routes.any (fun p => p.hit path))

/-- The parts of a Starlette request that the middleware reads: URL path and
query, HTTP method, and the identity resolved upstream by the
authentication backend (`request.user`). -/
structure Request where
  path : String
  query : String
  method : String
  userAuthenticated : Bool
  userId : String
  deriving DecidableEq, Repr

/-- A downstream response: status code plus opaque body. -/
structure Response where
  status_code : Int
  body : String
  deriving DecidableEq, Repr

/-- A row of the `access_logs` table as written by `log_access`. -/
structure AccessLogEntry where
  time : Int
  user_id : String
  request_method : String
  path : String
  response : Int
  deriving DecidableEq, Repr

/-- The row built by `AccessLogMiddleware.log_access`: the logged path carries
`?query` exactly when the query string is truthy (non-empty) and the
`query_params` flag is set. -/
def log_access_row (time : Int) (req : Request) (statusCode : Int)
    (query_params : Bool) : AccessLogEntry :=
  ⟨time, req.userId, req.method,
    req.path ++ (if req.query != "" && query_params then "?" ++ req.query else ""),
    statusCode⟩

/-- `AccessLogMiddleware.dispatch` at UTC timestamp `now`, with the downstream
chain `call_next`. Returns the response together with the access-log rows
written. Mirrors the source: empty `routes` and `query_routes` short-circuit
to a plain forward; otherwise logging happens only for an authenticated user
whose path matches the `routes` component of `match_route`, and only when the
status allow-list is empty or contains the response status. -/
def dispatch (cfg : AccessLogConfig) (req : Request) (now : Int)
    (call_next : Request → Response) : Response × List AccessLogEntry :=
  if cfg.routes.isEmpty && cfg.query_routes.isEmpty then
    (call_next req, [])
  else
    let rm := match_route cfg req.path
    if req.userAuthenticated && rm.1 then
      let response := call_next req
      if cfg.status_codes.isEmpty || cfg.status_codes.contains response.status_code then
        (response, [log_access_row now req response.status_code rm.2])
      else (response, [])
    else (call_next req, [])

/-- The identity attached to a request when the login handler runs:
`UnauthenticatedUser` (not authenticated), a plain `User` (authenticated), or
a `DefaultUser` (authenticated, synthetic). -/
inductive UserKind where
  | anonymousUser
  | regular (u : User)
  | defaultUser (u : User)

/-- `request.user.is_authenticated`: `False` for `UnauthenticatedUser`,
`True` for `User` and its subclass `DefaultUser`. -/
def UserKind.is_authenticated : UserKind → Bool
  | UserKind.anonymousUser => false
  | UserKind.regular _ => true
  | UserKind.defaultUser _ => true

/-- `isinstance(request.user, DefaultUser)`. -/
def UserKind.isDefault : UserKind → Bool
  | UserKind.defaultUser _ => true
  | _ => false

/-- The parts of the request that `handler_login` reads: the resolved
identity, the `next` query parameter, and the session. -/
structure LoginRequest where
  user : UserKind
  nextQuery : Option String
  session : Session

/-- Result of `handler_login`: an immediate `RedirectResponse(target)`, or the
delegation to `ms_client.authorize_redirect`. -/
inductive LoginResult where
  | redirect (target : String)
  | authorizeRedirect
  deriving DecidableEq, Repr

/-- The session's `next` entry after the unauthenticated branch of
`handler_login`: `if redirect := request.query_params.get("next"):
request.session["next"] = redirect` — the walrus test stashes only a truthy
(non-empty) query value. -/
def stashNext (q : Option String) (old : Option String) : Option String :=
  match q with
  | some r => if r == "" then old else some r
  | none => old

/-- `handler_login`: an authenticated non-default user is redirected at once
to the `next` query parameter, falling back to the session's stored `next`,
then `"/"`, with the session untouched; every other identity (anonymous or
the default/dev user) gets the `next` query value stashed in the session when
truthy, then the OAuth authorize-redirect delegation. -/
def handler_login (req : LoginRequest) : LoginResult × Session :=
  if !UserKind.isDefault req.user && UserKind.is_authenticated req.user then
    (LoginResult.redirect (req.nextQuery.getD (req.session.nextEntry.getD "/")), req.session)
  else
    match req.nextQuery with
    | some r =>
      if r == "" then (LoginResult.authorizeRedirect, req.session)
      else (LoginResult.authorizeRedirect, { req.session with nextEntry := some r })
    | none => (LoginResult.authorizeRedirect, req.session)

/-! Concrete inputs used by the witness and counterexample theorems. -/

/-- The spec's route-gate example configuration: plain set `{"/reports"}`,
query-inclusive set `{"/export"}`, empty status allow-list. -/
def cfgC1 : AccessLogConfig :=
  ⟨[RoutePattern.lit "/reports"], [RoutePattern.lit "/export"], []⟩

/-- An authenticated `GET /export?x=1` request. -/
def reqC1 : Request := ⟨"/export", "x=1", "GET", true, "u1"⟩

/-- A downstream handler answering 200 to every request. -/
def cnC1 : Request → Response := fun _ => ⟨200, "ok"⟩

/-- The default key configuration of `PostgresAuthenticationBackend`. -/
def cfgC2 : KeyConfig :=
  ⟨"id", "name", "email", "role", some "department", some "department_tree", false⟩

/-- A claim mapping with `exp = 100` and all configured keys present. -/
def mC2 : ClaimMapping :=
  [("exp", Value.vNum 100), ("id", Value.vStr "u1"), ("name", Value.vStr "User One"),
   ("email", Value.vStr "u1@example.com"), ("role", Value.vStrList ["admin"]),
   ("department", Value.vNum 7), ("department_tree", Value.vNumList [1, 7])]

/-- The identity `parseUser` derives from `mC2` under `cfgC2`. -/
def uC2 : User :=
  ⟨Value.vStr "u1", Value.vStr "User One", Value.vStr "u1@example.com",
   Value.vStrList ["admin"], some (Value.vNum 7), some (Value.vNumList [1, 7])⟩

/-- A backend with no transform and no default identity. -/
def bC2 : Backend := ⟨cfgC2, none, none⟩

/-- A session whose `user` entry holds `mC2`. -/
def sC2 : Session := ⟨some mC2, none⟩

/-- An authenticated, non-default identity for the login-handler witness. -/
def uC3 : User :=
  ⟨Value.vStr "x", Value.vStr "X", Value.vStr "x@y", Value.vStrList [], none, none⟩

/-- A login request by an authenticated non-default user with no `next`
query parameter and no stored `next`. -/
def reqC3 : LoginRequest := ⟨UserKind.regular uC3, none, ⟨none, none⟩⟩

/-- A login request by the default/dev identity carrying `next=/home`. -/
def reqC3d : LoginRequest := ⟨UserKind.defaultUser uC3, some "/home", ⟨none, none⟩⟩

/-- A middleware configuration with both route sets empty (status allow-list
deliberately non-empty, to show it is never consulted on the fast path). -/
def cfgC4 : AccessLogConfig := ⟨[], [], [200]⟩

/-- An authenticated request for the pass-through witness. -/
def reqC4 : Request := ⟨"/reports/1", "a=b", "GET", true, "u9"⟩

/-- A downstream handler echoing the request path in the body. -/
def cnC4 : Request → Response := fun r => ⟨404, r.path⟩

/-! Theorems. -/

/-- A successful dict lookup implies the dict is non-empty. -/
theorem cmGet_ne_nil {m : ClaimMapping} {k : String} {v : Value}
    (h : cmGet m k = some v) : m.isEmpty = false := by
  cases m with
  | nil => simp [cmGet] at h
  | cons a t => rfl

/-- Claim C1. The claim asserts union semantics for the should-log decision:
a request whose path matches a pattern of the query-inclusive set alone would
be in scope for logging with `includeQuery = true`. The code refutes this:
with plain set containing only the literal `/reports` and query-inclusive set
containing only the literal `/export`, `match_route` reports `/export` as a
query-route match but not a plain-route match, and `dispatch` — which gates
logging on the plain component of `match_route` alone — forwards an
authenticated request to `/export?x=1` with no access-log row written. -/
theorem c1_query_only_route_not_logged :
    match_route cfgC1 "/export" = (false, true) ∧
    dispatch cfgC1 reqC1 0 cnC1 = (⟨200, "ok"⟩, []) := by
  constructor
  · decide
  · decide

/-- Claim C2. Expiry correctness of `authenticate`: for a session whose
`user` entry is a claim mapping with numeric `exp`, an expired claim
(`exp ≤ now`) yields the anonymous identity, removes the `user` key, and
writes nothing to the store; an unexpired claim (`now < exp`) whose
optionally transformed mapping parses into a `User` with iterable roles
yields that identity authenticated, leaves the session unchanged, and
upserts exactly that identity into the store before returning. -/
theorem expiry_correctness (b : Backend) (s : Session) (m : ClaimMapping) (now e : Int)
    (hm : s.userEntry = some m) (hexp : cmGet m "exp" = some (Value.vNum e)) :
    (e ≤ now →
      authenticate b s now = (AuthOutcome.anonymous, { s with userEntry := none }, [])) ∧
    (now < e → ∀ u : User, parseUser b.cfg (applyTransform b m) = Except.ok u →
      rolesIterable u.roles = true →
      authenticate b s now = (AuthOutcome.authenticated u, s, [u])) := by
  have hne : m.isEmpty = false := cmGet_ne_nil hexp
  obtain ⟨su, sn⟩ := s
  have hm2 : su = some m := hm
  subst hm2
  constructor
  · intro hle
    have hge : now ≥ e := hle
    simp [authenticate, optMapTruthy, hne, hexp, hge]
  · intro hlt u hparse hroles
    have hnge : ¬ now ≥ e := not_le.mpr hlt
    simp [authenticate, optMapTruthy, hne, hexp, hnge, hparse, hroles]

/-- Claim C2, witness: with the concrete backend `bC2` and session `sC2`
(claim `exp = 100`), authentication at time 200 is anonymous and pops the
`user` entry, while authentication at time 50 returns the parsed identity
`uC2`, keeps the session, and upserts `uC2`. -/
theorem expiry_correctness_witness :
    authenticate bC2 sC2 200 = (AuthOutcome.anonymous, ⟨none, none⟩, []) ∧
    authenticate bC2 sC2 50 = (AuthOutcome.authenticated uC2, sC2, [uC2]) := by
  constructor
  · exact (expiry_correctness bC2 sC2 mC2 200 100 rfl rfl).1 (by decide)
  · exact (expiry_correctness bC2 sC2 mC2 50 100 rfl rfl).2 (by decide) uC2 rfl rfl

/-- Claim C3. Login handler dispatch: an authenticated identity that is not
the default/dev identity is immediately redirected to the `next` query
parameter, falling back to the session's stored `next`, then `"/"`, with the
session unchanged; every other identity — anonymous or the default/dev
identity — receives the authorize-redirect delegation, with the `next` query
value stashed in the session exactly when present and truthy. -/
theorem login_dispatch (req : LoginRequest) :
    (UserKind.isDefault req.user = false → UserKind.is_authenticated req.user = true →
      handler_login req =
        (LoginResult.redirect (req.nextQuery.getD (req.session.nextEntry.getD "/")),
         req.session)) ∧
    (UserKind.isDefault req.user = true ∨ UserKind.is_authenticated req.user = false →
      handler_login req =
        (LoginResult.authorizeRedirect,
         { req.session with nextEntry := stashNext req.nextQuery req.session.nextEntry })) := by
  obtain ⟨u, q, sess⟩ := req
  constructor
  · intro hdef hauth
    simp only [handler_login]
    rw [hdef, hauth]
    rfl
  · intro hother
    have hcond : (!UserKind.isDefault u && UserKind.is_authenticated u) = false := by
      rcases hother with h | h
      · simp [h]
      · simp [h]
    simp only [handler_login]
    rw [hcond]
    simp only [Bool.false_eq_true, if_false]
    cases q with
    | none => rfl
    | some r =>
      simp only [stashNext]
      by_cases hr : (r == "") = true
      · rw [if_pos hr, if_pos hr]
      · rw [if_neg hr, if_neg hr]

/-- Claim C3, witness: an authenticated non-default user with no `next`
query parameter and no stored `next` is redirected to `/` with the session
untouched; the default/dev identity carrying `next=/home` gets the
authorize-redirect delegation with `/home` stashed in the session. -/
theorem login_dispatch_witness :
    handler_login reqC3 = (LoginResult.redirect "/", ⟨none, none⟩) ∧
    handler_login reqC3d = (LoginResult.authorizeRedirect, ⟨none, some "/home"⟩) := by
  constructor
  · exact (login_dispatch reqC3).1 rfl rfl
  · exact (login_dispatch reqC3d).2 (Or.inl rfl)

/-- Claim C4. Pass-through fast path: when both the plain route set and the
query-inclusive route set are empty, `dispatch` returns exactly the
downstream handler's response with no access-log row — for every request,
every timestamp, and every downstream handler, so the result neither
consults the authentication state nor depends on the captured time, and no
store write occurs. -/
theorem pass_through_fast_path (cfg : AccessLogConfig) (req : Request) (now : Int)
    (call_next : Request → Response)
    (h1 : cfg.routes = []) (h2 : cfg.query_routes = []) :
    dispatch cfg req now call_next = (call_next req, []) := by
  unfold dispatch
  rw [h1, h2]
  rfl

/-- Claim C4, witness: with both route sets empty (and a non-empty status
allow-list), the middleware returns the downstream 404 response untouched
and writes no rows. -/
theorem pass_through_fast_path_witness :
    dispatch cfgC4 reqC4 7 cnC4 = (⟨404, "/reports/1"⟩, []) :=
  pass_through_fast_path cfgC4 reqC4 7 cnC4 rfl rfl

end AuthKommune
